import Mathlib

/-!
Verification of the observatorium token-refresher core (main.go) against its
specification.  The Go source is shallowly embedded: durations are integers
counting nanoseconds (Go time.Duration), instants are integers counting
nanoseconds since the epoch (Go time.Time, with 0 standing for the zero time),
strings are Lean strings, and the effects of the refresh loop (token fetch,
file write, file rename, context cancellation) are made explicit as oracle
arguments and an explicit file-system state.
-/

/-- Go time.Duration: a count of nanoseconds. -/
abbrev Duration := Int

/-- Go time.Second expressed in nanoseconds. -/
def second : Duration := 1000000000

/-- Go time.Minute expressed in nanoseconds. -/
def minute : Duration := 60 * second

/-- main.go line 34: retryInterval = 5 * time.Second, the fixed delay after a
failed fetch cycle. -/
def retryInterval : Duration := 5 * second

/-- main.go line 35: prefixHeader = X-Forwarded-Prefix. -/
def prefixHeader : String := "X-Forwarded-Prefix"

/-- The oauth2.Token fields the program reads: AccessToken and Expiry.  Expiry
is an instant in nanoseconds since the epoch; 0 stands for the zero time
(token that never expires). -/
structure Token where
  accessToken : String
  expiry : Int
  deriving Repr, DecidableEq

/-- golang.org/x/oauth2: expiryDelta = 10 * time.Second, the early-expiry
allowance used by Token.Valid. -/
def expiryDelta : Duration := 10 * second

/-- golang.org/x/oauth2 Token.expired at instant now: false when Expiry is the
zero time, otherwise whether Expiry minus expiryDelta is before now. -/
def Token.expired (t : Token) (now : Int) : Bool :=
  if t.expiry = 0 then false else decide (t.expiry - expiryDelta < now)

/-- golang.org/x/oauth2 Token.Valid at instant now: a non-empty access token
that has not expired. -/
def Token.Valid (t : Token) (now : Int) : Bool :=
  !(t.accessToken == "") && !(t.expired now)

/-- The two files the refresh loop touches: the temporary file (cfg.tempFile)
and the final token file (cfg.file).  none means the file does not exist. -/
structure FS where
  tempFile : Option String
  finalFile : Option String
  deriving Repr, DecidableEq

/-- Result of one publish attempt: whether it succeeded and the resulting file
state. -/
structure PubResult where
  success : Bool
  fs : FS
  deriving Repr, DecidableEq

/-- The publish step of the refresh loop, main.go lines 267-271:
ioutil.WriteFile of the raw access-token bytes to the temporary file, then
os.Rename of the temporary file onto the final file.  writeOk and renameOk are
oracles for the success of the two filesystem operations; a failed operation
leaves the affected files as they were. -/
def publish (writeOk renameOk : Bool) (t : Token) (fs : FS) : PubResult :=
  if !writeOk then ⟨false, fs⟩
  else
    let fs1 : FS := { fs with tempFile := some t.accessToken }
    if !renameOk then ⟨false, fs1⟩
    else ⟨true, { tempFile := none, finalFile := fs1.tempFile }⟩

/-- Outcome of the token fetch ccc.Token(ctx): an error, or a token. -/
inductive FetchResult where
  | fetchErr
  | ok (t : Token)
  deriving Repr, DecidableEq

/-- The error log lines the refresh loop can emit, main.go lines 263, 265,
268, 272. -/
inductive LogMsg where
  | failedGetToken
  | tokenInvalid
  | failedWriteTemp
  | failedRenameFile
  deriving Repr, DecidableEq

/-- Result of one iteration body of the refresh loop: the duration passed to
the timer, the file state, and the error logged, if any. -/
structure CycleOutcome where
  d : Duration
  fs : FS
  log : Option LogMsg
  deriving Repr, DecidableEq

/-- One iteration body of the file-mode refresh loop, main.go lines 259-276:
d starts as retryInterval; on fetch error or invalid token the error is logged
and d stays retryInterval; otherwise the token is written to the temporary
file and renamed onto the final file, a failure of either step being logged
with d staying retryInterval, and on full success d becomes
Expiry.Sub(now) - margin. -/
def refreshCycle (margin : Duration) (now : Int) (res : FetchResult)
    (writeOk renameOk : Bool) (fs : FS) : CycleOutcome :=
  match res with
  | .fetchErr => ⟨retryInterval, fs, some .failedGetToken⟩
  | .ok t =>
    if !(t.Valid now) then ⟨retryInterval, fs, some .tokenInvalid⟩
    else if !writeOk then ⟨retryInterval, fs, some .failedWriteTemp⟩
    else
      let fs1 : FS := { fs with tempFile := some t.accessToken }
      if !renameOk then ⟨retryInterval, fs1, some .failedRenameFile⟩
      else ⟨t.expiry - now - margin,
            { tempFile := none, finalFile := fs1.tempFile }, none⟩

/-- Go time.NewTimer(d) fires immediately when d is not positive: the time
actually slept is d clamped at zero. -/
def timerWait (d : Duration) : Duration := max d 0

/-- The select at main.go lines 277-281: the only return of the loop body is
the ctx.Done branch, so an iteration exits the loop exactly when the context
is done. -/
def iterationExits (ctxDone : Bool) : Bool := ctxDone

/-- n iterations of the refresh loop, main.go lines 258-282, starting at step
index i, drawing the fetch result, write and rename outcomes, current instant
and cancellation state of each step from streams indexed by step.  Returns the
final file state and whether the loop has returned. -/
def runLoopFrom (margin : Duration) (fetch : Nat → FetchResult)
    (writeOk renameOk ctxDone : Nat → Bool) (nowAt : Nat → Int) :
    Nat → Nat → FS → FS × Bool
  | _, 0, fs => (fs, false)
  | i, n + 1, fs =>
    let out := refreshCycle margin (nowAt i) (fetch i) (writeOk i) (renameOk i) fs
    if iterationExits (ctxDone i) then (out.fs, true)
    else runLoopFrom margin fetch writeOk renameOk ctxDone nowAt (i + 1) n out.fs

/-- strings.HasPrefix from the Go standard library: s begins with p. -/
def hasPrefix (s p : String) : Bool := p.data.isPrefixOf s.data

/-- strings.HasSuffix from the Go standard library: s ends with p. -/
def hasSuffix (s p : String) : Bool := p.data.isSuffixOf s.data

/-- main.go lines 351-361: singleJoiningSlash joins two path strings with
exactly one slash at the joint, stripping one slash when both sides carry one
and inserting one when neither does.  b.drop 1 embeds the Go byte slice b[1:],
which here always removes a leading one-byte "/". -/
def singleJoiningSlash (a b : String) : String :=
  let aslash := hasSuffix a "/"
  let bslash := hasPrefix b "/"
  if aslash && bslash then a ++ b.drop 1
  else if !aslash && !bslash then a ++ "/" ++ b
  else a ++ b

/-- The net/url URL fields the program reads and writes: Scheme, Host, Path,
RawPath and RawQuery. -/
structure URL where
  scheme : String := ""
  host : String := ""
  path : String := ""
  rawPath : String := ""
  rawQuery : String := ""
  deriving Repr, DecidableEq

/-- net/url URL.EscapedPath, at the level the program relies on: net/url
maintains RawPath only when it is a valid encoding of Path, and EscapedPath
then returns RawPath; when RawPath is empty it returns the escaped form of
Path, which coincides with Path for paths containing no
characters that need escaping (escaping never changes where the slashes
are, which is all joinURLPath inspects). -/
def URL.EscapedPath (u : URL) : String :=
  if u.rawPath = "" then u.path else u.rawPath

/-- main.go lines 363-378: joinURLPath returns the joined plain path and the
joined raw path.  When neither URL has a RawPath it is a single joining slash
on the plain paths with an empty raw path; otherwise the slash case is decided
on the escaped paths and applied to the plain paths and the escaped paths
alike. -/
def joinURLPath (a b : URL) : String × String :=
  if a.rawPath = "" && b.rawPath = "" then
    (singleJoiningSlash a.path b.path, "")
  else
    let apath := a.EscapedPath
    let bpath := b.EscapedPath
    let aslash := hasSuffix apath "/"
    let bslash := hasPrefix bpath "/"
    if aslash && bslash then (a.path ++ b.path.drop 1, apath ++ bpath.drop 1)
    else if !aslash && !bslash then (a.path ++ "/" ++ b.path, apath ++ "/" ++ bpath)
    else (a.path ++ b.path, apath ++ bpath)

/-- Helper for stating the joint property: the left operand with one trailing
slash removed, when it has one. -/
def dropTailSlash (a : String) : String :=
  if hasSuffix a "/" then ⟨a.data.dropLast⟩ else a

/-- Helper for stating the joint property: the right operand with one leading
slash removed, when it has one. -/
def dropLeadSlash (b : String) : String :=
  if hasPrefix b "/" then b.drop 1 else b

/-- Helper for stating the shared slash rule of joinURLPath: the case is
decided on the strings c and d and applied to the strings x and y. -/
def slashRuleJoin (c d x y : String) : String :=
  if hasSuffix c "/" && hasPrefix d "/" then x ++ y.drop 1
  else if !(hasSuffix c "/") && !(hasPrefix d "/") then x ++ "/" ++ y
  else x ++ y

/-- The http.Request fields the program reads and writes: Method, URL, Host,
Header and Body.  Headers are a sequence of key and value pairs; Header.Add
appends a pair and Header.Set replaces every pair with the given key (the keys
the program uses are already in canonical MIME form, so canonicalization is
the identity on them). -/
structure Request where
  method : String := ""
  url : URL := {}
  host : String := ""
  headers : List (String × String) := []
  body : String := ""
  deriving Repr, DecidableEq

/-- net/http Header.Add: appends the key and value pair. -/
def headerAdd (hs : List (String × String)) (k v : String) :
    List (String × String) :=
  hs ++ [(k, v)]

/-- net/http Header.Set: replaces all values of the key with the single
value. -/
def headerSet (hs : List (String × String)) (k v : String) :
    List (String × String) :=
  hs.filter (fun p => !(p.1 == k)) ++ [(k, v)]

/-- The reverse-proxy Director, main.go lines 292-302: rewrite the URL scheme
and host to the upstream ones, set Host on the request as well, derive Path
and RawPath by joining the upstream URL with the request URL, and add the
X-Forwarded-Prefix header with value "/". -/
def director (upstream : URL) (r : Request) : Request :=
  { r with
    url := { r.url with
      scheme := upstream.scheme
      host := upstream.host
      path := (joinURLPath upstream r.url).1
      rawPath := (joinURLPath upstream r.url).2 }
    host := upstream.host
    headers := headerAdd r.headers prefixHeader "/" }

/-- golang.org/x/oauth2 Transport.RoundTrip with a token of the default type
Bearer, main.go lines 319-322: sets the Authorization header to
"Bearer " followed by the access token on the outgoing request. -/
def setAuthHeader (t : Token) (r : Request) : Request :=
  { r with headers := headerSet r.headers "Authorization" ("Bearer " ++ t.accessToken) }

/-- net/url Values: a finite map from keys to lists of values, here as an
association list (each construction in the program builds a fresh literal with
distinct keys, so the representation order is the literal order). -/
abbrev URLValues := List (String × List String)

/-- The extra token-endpoint parameters, main.go lines 238-254: three
successive assignments to ccc.EndpointParams, each replacing the whole value —
first the audience parameters when audience is set, then the password-grant
parameters when username and password are both set, then the scope parameters
when scopes are set. -/
def endpointParams (audience username password : String)
    (scope : List String) : URLValues :=
  let p : URLValues := []
  let p := if !(audience == "") then [("audience", [audience])] else p
  let p := if !(username == "") && !(password == "") then
      [("username", [username]), ("password", [password]),
       ("grant_type", ["password"])]
    else p
  let p := if !scope.isEmpty then
      [("scope", [String.intercalate " " scope])]
    else p
  p

/-- Modelled from the spec, for comparison with endpointParams: the selection
priority as the spec words it — password grant when username and password are
both set, else the scope parameter when scopes are set, else the audience
parameter when audience is set. -/
def specEndpointParams (audience username password : String)
    (scope : List String) : URLValues :=
  if !(username == "") && !(password == "") then
    [("username", [username]), ("password", [password]),
     ("grant_type", ["password"])]
  else if !scope.isEmpty then
    [("scope", [String.intercalate " " scope])]
  else if !(audience == "") then
    [("audience", [audience])]
  else []

/-- The four accepted log levels, main.go lines 117-128. -/
inductive LogLevel where
  | error
  | warn
  | info
  | debug
  deriving Repr, DecidableEq

/-- The log-level switch of parseFlags, main.go lines 117-128: none on an
unexpected level string. -/
def parseLogLevel : String → Option LogLevel
  | "error" => some .error
  | "warn" => some .warn
  | "info" => some .info
  | "debug" => some .debug
  | _ => none

/-- The configuration errors parseFlags can return, main.go lines 127, 131
and 151. -/
inductive ConfigError where
  | badLogLevel
  | bothURLs
  | missingFileOrURL
  deriving Repr, DecidableEq

/-- The raw flag values parseFlags validates, main.go lines 92-115. -/
structure Flags where
  logLevel : String := "info"
  file : String := ""
  tempFile : String := ""
  rawURL : String := ""
  rawUpstreamURL : String := ""
  deriving Repr, DecidableEq

/-- The validated configuration parseFlags produces; the upstream URL is kept
as the raw string it was parsed from. -/
structure Config where
  file : String
  tempFile : String
  upstreamURL : Option String
  logLevel : LogLevel
  deriving Repr, DecidableEq

/-- The validation part of parseFlags, main.go lines 117-158: reject an
unexpected log level; reject both --url and --upstream.url being set; take the
upstream URL from whichever of the two is set (url.Parse is modelled as
succeeding, the claims under test concerning only well-formed URLs); reject
neither --file nor an upstream URL being set; default the temp file to the
token file with ".tmp" appended. -/
def parseFlags (f : Flags) : Except ConfigError Config :=
  match parseLogLevel f.logLevel with
  | none => .error .badLogLevel
  | some lvl =>
    if !(f.rawURL == "") && !(f.rawUpstreamURL == "") then .error .bothURLs
    else
      let u : Option String :=
        if !(f.rawURL == "") then some f.rawURL
        else if !(f.rawUpstreamURL == "") then some f.rawUpstreamURL
        else none
      if f.file == "" && u.isNone then .error .missingFileOrURL
      else .ok ⟨f.file,
        if f.tempFile == "" then f.file ++ ".tmp" else f.tempFile, u, lvl⟩

/-- Startup events up to the first network call. -/
inductive StartupEvent where
  | configFatal (e : ConfigError)
  | networkCall
  deriving Repr, DecidableEq

/-- The startup sequence of main up to the first network call, main.go lines
161-227: parseFlags first, a configuration error being fatal before anything
else runs; logger and metrics setup make no network call; the first network
call is the OIDC provider discovery at line 224. -/
def startupEvents (f : Flags) : List StartupEvent :=
  match parseFlags f with
  | .error e => [.configFatal e]
  | .ok _ => [.networkCall]

-- helper string lemmas
theorem hasSuffix_slash_data {a : String} (h : hasSuffix a "/" = true) :
    a.data = a.data.dropLast ++ ['/'] := by
  rw [hasSuffix, List.isSuffixOf_iff_suffix] at h
  obtain ⟨t, ht⟩ := h
  rw [← ht]
  simp

theorem hasPrefix_slash_data {b : String} (h : hasPrefix b "/" = true) :
    b.data = '/' :: b.data.tail := by
  rw [hasPrefix, List.isPrefixOf_iff_prefix] at h
  obtain ⟨t, ht⟩ := h
  rw [← ht]
  rfl

theorem singleJoiningSlash_joint (a b : String) :
    singleJoiningSlash a b = dropTailSlash a ++ "/" ++ dropLeadSlash b := by
  apply String.ext
  cases hA : hasSuffix a "/" <;> cases hB : hasPrefix b "/" <;>
    simp [singleJoiningSlash, dropTailSlash, dropLeadSlash, hA, hB,
      String.data_append, String.data_drop]
  · exact hasPrefix_slash_data hB
  · conv_lhs => rw [hasSuffix_slash_data hA]
    simp
  · conv_lhs => rw [hasSuffix_slash_data hA]
    simp

/-- C1: for a fetch returning a token that is valid now and whose publish to
the file succeeds, the next wake duration is expiry - now - margin, the time
actually slept is that value clamped at a non-negative floor, and the timer
fires immediately whenever the value is negative or zero. -/
theorem C1_next_wake (margin : Duration) (now : Int) (t : Token) (fs : FS)
    (hv : t.Valid now = true) :
    (refreshCycle margin now (.ok t) true true fs).d = t.expiry - now - margin ∧
    timerWait (refreshCycle margin now (.ok t) true true fs).d
      = max (t.expiry - now - margin) 0 ∧
    (t.expiry - now - margin ≤ 0 →
      timerWait (refreshCycle margin now (.ok t) true true fs).d = 0) := by
  refine ⟨by simp [refreshCycle, hv], by simp [refreshCycle, hv, timerWait], ?_⟩
  intro h
  simp [refreshCycle, hv, timerWait, max_eq_right h]

theorem C1_witness :
    Token.Valid ⟨"tok", 600 * second⟩ 0 = true ∧
    (refreshCycle (5 * minute) 0 (.ok ⟨"tok", 600 * second⟩) true true
        ⟨none, none⟩).d = 600 * second - 0 - 5 * minute :=
  ⟨by decide, (C1_next_wake (5 * minute) 0 ⟨"tok", 600 * second⟩ ⟨none, none⟩
      (by decide)).1⟩

/-- C2: on a fetch error the cycle logs the failure, leaves both files alone
and passes exactly retryInterval to the timer, which sleeps it in full; an
iteration exits the loop exactly on cancellation, so while the context is
never done the loop never returns, however many iterations run and whatever
the fetch results. -/
theorem C2_retry_forever (margin : Duration) (fetch : Nat → FetchResult)
    (writeOk renameOk ctxDone : Nat → Bool) (nowAt : Nat → Int)
    (hc : ∀ i, ctxDone i = false) :
    (∀ now w r fs, refreshCycle margin now .fetchErr w r fs
        = ⟨retryInterval, fs, some .failedGetToken⟩) ∧
    timerWait retryInterval = retryInterval ∧
    (∀ b, iterationExits b = b) ∧
    (∀ i n fs,
      (runLoopFrom margin fetch writeOk renameOk ctxDone nowAt i n fs).2
        = false) := by
  refine ⟨fun now w r fs => rfl, by decide, fun b => rfl, ?_⟩
  intro i n
  induction n generalizing i with
  | zero => intro fs; rfl
  | succ n ih =>
    intro fs
    simp [runLoopFrom, iterationExits, hc i]
    exact ih (i + 1) _

theorem C2_witness :
    (runLoopFrom (5 * minute) (fun _ => FetchResult.fetchErr) (fun _ => true)
        (fun _ => true) (fun _ => false) (fun _ => 0) 0 3 ⟨none, none⟩).2
      = false :=
  (C2_retry_forever (5 * minute) (fun _ => FetchResult.fetchErr)
      (fun _ => true) (fun _ => true) (fun _ => false) (fun _ => 0)
      (fun _ => rfl)).2.2.2 0 3 ⟨none, none⟩

/-- C4: when the fetched token fails its validity check, or the temporary-file
write fails, or the rename fails, the final token file is left unchanged and
the next wake duration is retryInterval, not a value derived from the new
token. -/
theorem C4_failure_keeps_file (margin : Duration) (now : Int) (t : Token)
    (writeOk renameOk : Bool) (fs : FS)
    (h : t.Valid now = false ∨ writeOk = false ∨ renameOk = false) :
    (refreshCycle margin now (.ok t) writeOk renameOk fs).fs.finalFile
        = fs.finalFile ∧
    (refreshCycle margin now (.ok t) writeOk renameOk fs).d = retryInterval := by
  cases hv : t.Valid now <;> cases hw : writeOk <;> cases hr : renameOk <;>
    simp_all [refreshCycle]

theorem C4_witness :
    Token.Valid ⟨"", 600 * second⟩ 0 = false ∧
    (refreshCycle (5 * minute) 0 (.ok ⟨"", 600 * second⟩) true true
        ⟨none, some "old"⟩).fs.finalFile = some "old" :=
  ⟨by decide, (C4_failure_keeps_file (5 * minute) 0 ⟨"", 600 * second⟩ true
      true ⟨none, some "old"⟩ (Or.inl (by decide))).1⟩

/-- C5: a successful publish leaves the final file holding exactly the bytes
of the access token, nothing more. -/
theorem C5_publish_exact_bytes (writeOk renameOk : Bool) (t : Token) (fs : FS)
    (h : (publish writeOk renameOk t fs).success = true) :
    (publish writeOk renameOk t fs).fs.finalFile = some t.accessToken := by
  cases writeOk <;> cases renameOk <;> simp_all [publish]

theorem C5_witness :
    ((publish true true ⟨"tok", 0⟩ ⟨none, some "old"⟩).success = true) ∧
    (publish true true ⟨"tok", 0⟩ ⟨none, some "old"⟩).fs.finalFile
      = some "tok" :=
  ⟨by decide, C5_publish_exact_bytes true true ⟨"tok", 0⟩ ⟨none, some "old"⟩
      (by decide)⟩

/-- C9: publishing the same token twice succeeds both times and leaves the
file state, in particular the final file content, identical to publishing it
once. -/
theorem C9_publish_idempotent (t : Token) (fs : FS) :
    (publish true true t fs).success = true ∧
    (publish true true t (publish true true t fs).fs).success = true ∧
    (publish true true t (publish true true t fs).fs).fs
      = (publish true true t fs).fs := by
  simp [publish]

/-- C3 as stated is false on the code: with username and password both set and
scopes also set, the parameters sent are the scope parameters, not the
password grant the claimed priority requires. -/
theorem C3_counterexample :
    endpointParams "" "user" "pass" ["email"] = [("scope", ["email"])] ∧
    endpointParams "" "user" "pass" ["email"]
      ≠ specEndpointParams "" "user" "pass" ["email"] := by
  constructor <;> decide

/-- C3 amended: the assignments overwrite each other, so the parameters follow
the last-write-wins priority — the scope parameters when scopes are set, else
the password grant when username and password are both set, else the audience
parameters when audience is set, else none — and at most one extra-parameter
set is attached per call. -/
theorem C3_amended (audience username password : String)
    (scope : List String) :
    endpointParams audience username password scope
      = (if !scope.isEmpty then
           [("scope", [String.intercalate " " scope])]
         else if !(username == "") && !(password == "") then
           [("username", [username]), ("password", [password]),
            ("grant_type", ["password"])]
         else if !(audience == "") then [("audience", [audience])]
         else []) := by
  cases hs : scope.isEmpty <;> cases hu : username == "" <;>
    cases hp : password == "" <;> cases ha : audience == "" <;>
      simp [endpointParams, hs, hu, hp, ha]

/-- C10: the Director changes only the URL scheme, the URL host, the request
Host, the URL path and raw path, and appends the single X-Forwarded-Prefix
header; the method, the query string, the body and all pre-existing headers
are untouched. -/
theorem C10_director_frame (u : URL) (r : Request) :
    (director u r).method = r.method ∧
    (director u r).url.rawQuery = r.url.rawQuery ∧
    (director u r).body = r.body ∧
    (director u r).headers = r.headers ++ [(prefixHeader, "/")] := by
  simp [director, headerAdd]

/-- C6: the three concrete joins of the spec hold; when neither URL carries a
RawPath, joinURLPath is the single joining slash of the plain paths with an
empty raw path; the single joining slash always yields the left path less one
trailing slash, exactly one slash, and the right path less one leading slash;
and otherwise joinURLPath applies one and the same slash rule, decided on the
escaped paths, to the plain paths and to the escaped paths, keeping Path and
RawPath consistent. -/
theorem C6_join_url_path :
    singleJoiningSlash "/api/v1" "/metrics" = "/api/v1/metrics" ∧
    singleJoiningSlash "/api/v1/" "/metrics" = "/api/v1/metrics" ∧
    singleJoiningSlash "/api/v1" "metrics" = "/api/v1/metrics" ∧
    (∀ a b : URL, a.rawPath = "" → b.rawPath = "" →
      joinURLPath a b = (singleJoiningSlash a.path b.path, "")) ∧
    (∀ a b : String, singleJoiningSlash a b
        = dropTailSlash a ++ "/" ++ dropLeadSlash b) ∧
    (∀ a b : URL, ¬(a.rawPath = "" ∧ b.rawPath = "") →
      joinURLPath a b
        = (slashRuleJoin a.EscapedPath b.EscapedPath a.path b.path,
           slashRuleJoin a.EscapedPath b.EscapedPath a.EscapedPath
             b.EscapedPath)) := by
  refine ⟨by decide, by decide, by decide, ?_, singleJoiningSlash_joint, ?_⟩
  · intro a b ha hb
    simp [joinURLPath, ha, hb]
  · intro a b h
    have hcond : (a.rawPath == "" && b.rawPath == "") = false := by
      by_cases hp : a.rawPath = "" <;> by_cases hq : b.rawPath = "" <;>
        simp [hp, hq] at h ⊢
    cases h1 : hasSuffix a.EscapedPath "/" <;>
      cases h2 : hasPrefix b.EscapedPath "/" <;>
        simp [joinURLPath, slashRuleJoin, hcond, h1, h2] <;>
          (intro hp hq; exact absurd ⟨hp, hq⟩ h)

theorem C6_witness :
    joinURLPath { path := "/a", rawPath := "/%61" } { path := "/b" }
      = ("/a/b", "/%61/b") := by
  have h := C6_join_url_path.2.2.2.2.2 { path := "/a", rawPath := "/%61" }
      { path := "/b" } (by simp)
  rw [h]
  decide

/-- C7: a proxied request gets its URL scheme and both hosts rewritten to the
upstream ones, its forwarded path is the join of the upstream base path and
the incoming path, the X-Forwarded-Prefix header with value "/" is added, and
the token is attached as an Authorization Bearer header. -/
theorem C7_forwarding (u : URL) (r : Request) (t : Token)
    (hu : u.path = "/api/metrics/v1/test") (hur : u.rawPath = "")
    (hr : r.url.path = "/foo/bar") (hrr : r.url.rawPath = "") :
    (setAuthHeader t (director u r)).url.scheme = u.scheme ∧
    (setAuthHeader t (director u r)).host = u.host ∧
    (setAuthHeader t (director u r)).url.host = u.host ∧
    (setAuthHeader t (director u r)).url.path
      = "/api/metrics/v1/test/foo/bar" ∧
    (prefixHeader, "/") ∈ (setAuthHeader t (director u r)).headers ∧
    ("Authorization", "Bearer " ++ t.accessToken)
      ∈ (setAuthHeader t (director u r)).headers := by
  refine ⟨rfl, rfl, rfl, ?_, ?_, ?_⟩
  · simp [setAuthHeader, director, joinURLPath, hu, hur, hr, hrr]
    decide
  · simp [setAuthHeader, director, headerAdd, headerSet, prefixHeader]
  · simp [setAuthHeader, director, headerAdd, headerSet]

theorem C7_witness :
    (setAuthHeader ⟨"tok", 0⟩ (director
        { scheme := "https", host := "example.com",
          path := "/api/metrics/v1/test" }
        { method := "GET", url := { path := "/foo/bar" } })).url.path
      = "/api/metrics/v1/test/foo/bar" :=
  (C7_forwarding
      { scheme := "https", host := "example.com",
        path := "/api/metrics/v1/test" }
      { method := "GET", url := { path := "/foo/bar" } }
      ⟨"tok", 0⟩ rfl rfl rfl rfl).2.2.2.1

/-- C8: with a valid log level, when neither the token file nor an upstream
URL is set, parseFlags fails with the missing-file-or-URL configuration error
and startup ends before any network call; setting both the token file and an
upstream URL is accepted; setting --url and --upstream.url together is
rejected. -/
theorem C8_config_validation (f : Flags)
    (hl : (parseLogLevel f.logLevel).isSome = true) :
    (f.file = "" → f.rawURL = "" → f.rawUpstreamURL = "" →
      parseFlags f = .error .missingFileOrURL ∧
      startupEvents f = [.configFatal .missingFileOrURL] ∧
      StartupEvent.networkCall ∉ startupEvents f) ∧
    (¬(f.file = "") → ¬(f.rawUpstreamURL = "") → f.rawURL = "" →
      ∃ c, parseFlags f = .ok c) ∧
    (¬(f.rawURL = "") → ¬(f.rawUpstreamURL = "") →
      parseFlags f = .error .bothURLs) := by
  rcases hopt : parseLogLevel f.logLevel with _ | lvl
  · rw [hopt] at hl
    exact absurd hl (by simp)
  refine ⟨?_, ?_, ?_⟩
  · intro h1 h2 h3
    refine ⟨?_, ?_, ?_⟩ <;>
      simp [parseFlags, startupEvents, hopt, h1, h2, h3]
  · intro h1 h2 h3
    refine ⟨⟨f.file, if f.tempFile == "" then f.file ++ ".tmp" else f.tempFile,
        some f.rawUpstreamURL, lvl⟩, ?_⟩
    simp [parseFlags, hopt, h1, h2, h3]
  · intro h1 h2
    simp [parseFlags, hopt, h1, h2]

theorem C8_witness :
    parseFlags { logLevel := "info" } = .error .missingFileOrURL ∧
    startupEvents { logLevel := "info" }
      = [.configFatal .missingFileOrURL] := by
  have h := (C8_config_validation { logLevel := "info" } (by decide)).1
      rfl rfl rfl
  exact ⟨h.1, h.2.1⟩
